import Mathlib

/-!
# Contact-form relay handler (`api/send-email.js`)

A shallow embedding of the single serverless handler exported by
`api/send-email.js`, followed by theorems about its guard order, its response
mapping, the email handed to the provider, and the newline conversion of the
HTML body.

The handler's inputs are made explicit: the request (`req`), the process
environment (`process.env`) and the `Resend` client constructor.  Its effects
(responses written through `res`, provider calls, console output, an exception
leaving the function) are collected in an `Outcome` record.
-/

namespace SendEmail

/-! ## JavaScript values -/

/-- Values that can reach the handler through a parsed request body.  Numbers
are the integer-valued ones; a fractional number takes the same branches as a
non-zero integer (truthy, no `replace` method). Objects list their own
properties as produced by the JSON parser, the effective entry of a key first. -/
inductive JsVal where
  | undefined
  | null
  | bool (b : Bool)
  | num (n : Int)
  | str (s : String)
  | arr (items : List JsVal)
  | obj (props : List (String × JsVal))

/-- What a `throw` carries: a `TypeError` raised by the language itself, or the
reason with which the provider call rejected. -/
inductive JsError where
  | typeError
  | rejected (reason : String)
deriving DecidableEq, Repr

/-- The values `undefined` and `null`: they have no properties and cannot be
destructured. -/
def isNullish : JsVal → Bool
  | .undefined => true
  | .null => true
  | _ => false

/-- JavaScript truthiness, as tested by `!x`. -/
def truthy : JsVal → Bool
  | .undefined => false
  | .null => false
  | .bool b => b
  | .num n => n != 0
  | .str s => s != ""
  | .arr _ => true
  | .obj _ => true

/-- Own-property lookup in a parsed object. -/
def lookup (k : String) : List (String × JsVal) → Option JsVal
  | [] => none
  | (k', v) :: rest => if k' = k then some v else lookup k rest

/-- The expression `body[k]` for a body that is not nullish and a key `k` among
`name`, `email`, `subject`, `message`: none of these is defined on the
prototypes of objects, arrays, strings, numbers or booleans, so only own
properties of an object can answer. -/
def property (body : JsVal) (k : String) : JsVal :=
  match body with
  | .obj props => (lookup k props).getD .undefined
  | _ => .undefined

/-- The statement `const { name, email: replyToEmail, subject, message } = req.body;`:
a `TypeError` when the body is `undefined` or `null`, otherwise the four
properties. -/
def destructure (body : JsVal) : Except JsError (JsVal × JsVal × JsVal × JsVal) :=
  if isNullish body then .error .typeError
  else .ok (property body "name", property body "email", property body "subject",
            property body "message")

mutual
/-- The string conversion applied by a template literal placeholder.  A parsed
object owning a `toString` entry (which cannot be callable) has no primitive
value and the conversion throws; an array joins its elements with commas. -/
def toStr : JsVal → Except JsError String
  | .undefined => .ok "undefined"
  | .null => .ok "null"
  | .bool b => .ok (if b then "true" else "false")
  | .num n => .ok (toString n)
  | .str s => .ok s
  | .arr items =>
    match elemStrs items with
    | .error e => .error e
    | .ok ss => .ok (String.intercalate "," ss)
  | .obj props =>
    if (lookup "toString" props).isSome then .error .typeError else .ok "[object Object]"
termination_by structural v => v
/-- The element strings of `Array.prototype.join`: nullish elements give the
empty string. -/
def elemStrs : List JsVal → Except JsError (List String)
  | [] => .ok []
  | v :: rest =>
    match (if isNullish v then Except.ok "" else toStr v) with
    | .error e => .error e
    | .ok s =>
      match elemStrs rest with
      | .error e => .error e
      | .ok ss => .ok (s :: ss)
termination_by structural vs => vs
end

/-! ## `message.replace(/\n/g, '<br>')` -/

/-- The replacement loop of a global regular-expression replace for the
pattern `\n`: `acc` is the accumulated result, `seg` the characters read since
the last match (most recent first), the third argument the unread input. -/
def replaceLoop : List Char → List Char → List Char → List Char
  | acc, seg, [] => acc ++ seg.reverse
  | acc, seg, c :: rest =>
    if c = '\n' then replaceLoop (acc ++ seg.reverse ++ ['<', 'b', 'r', '>']) [] rest
    else replaceLoop acc (c :: seg) rest

/-- The call `s.replace(/\n/g, '<br>')` on a string. -/
def replaceNewlines (s : String) : String :=
  String.mk (replaceLoop [] [] s.data)

/-- What one character of the message becomes in the spec's wording of the
conversion: a newline becomes the line break `<br>`, any other character stays. -/
def brOf (c : Char) : List Char :=
  if c = '\n' then ['<', 'b', 'r', '>'] else [c]

/-- The spec's wording of the conversion, "newline characters converted to line
breaks": every character is kept, except that each newline becomes `<br>`. -/
def newlinesToBr (s : String) : String :=
  String.mk (s.data.flatMap brOf)

/-- The method call `message.replace(/\n/g, '<br>')`: only strings have a
callable `replace`; on any other truthy value the call is a `TypeError`. -/
def callReplace : JsVal → Except JsError String
  | .str s => .ok (replaceNewlines s)
  | _ => .error .typeError

/-! ## Handler inputs and effects -/

/-- The three variables read from `process.env`; a variable that is not set
reads as `undefined`. -/
structure Env where
  RESEND_API_KEY : Option String
  CONTACT_FORM_TO_EMAIL : Option String
  CONTACT_FORM_FROM_EMAIL : Option String

/-- Truthiness of an environment value: set and not the empty string. -/
def envTruthy : Option String → Bool
  | none => false
  | some s => s != ""

/-- The request as far as the handler reads it. -/
structure Request where
  method : String
  body : JsVal

/-- The argument object of `resend.emails.send` (`from_` and `to_` stand for its
`from` and `to` members). The addresses are passed as
read from the environment and `reply_to` as read from the body. -/
structure OutboundEmail where
  from_ : Option String
  to_ : List (Option String)
  subject : String
  reply_to : JsVal
  html : String

/-- The `error` member of the provider's result. -/
structure ProviderError where
  message : String
deriving DecidableEq, Repr

/-- How the awaited `resend.emails.send(...)` ends: it resolves to
`{ data, error }`, where `data` is `null` or carries an `id` and `error` is
`null` or an error object, or it rejects. -/
inductive SendOutcome where
  | resolved (data : Option String) (error : Option ProviderError)
  | rejected (reason : String)

/-- The constructor `new Resend(apiKey)` together with the `emails.send` method
of the client it returns.  The handler constructs the client only with a
non-empty key; the construction itself makes no call and is taken not to
throw. -/
abbrev Resend := Option String → OutboundEmail → SendOutcome

/-- One call of `res.status(code).json({ message })`, with the headers set
before it. -/
structure Response where
  status : Nat
  headers : List (String × List String)
  message : String
deriving DecidableEq, Repr

/-- One line written to the console. -/
inductive LogEntry where
  | configError (line : String)
  | resendApiError (error : ProviderError)
  | sentId (id : String)
  | catchBlock (error : JsError)
deriving DecidableEq, Repr

/-- Everything observable from one run of the handler. -/
structure Outcome where
  responses : List Response := []
  sent : List OutboundEmail := []
  logs : List LogEntry := []
  escaped : Option JsError := none

/-- The `html` template literal of the handler. -/
def htmlBody (name replyToEmail subject message : String) : String :=
  "\n          <h1>New Contact Form Submission</h1>\n          <p><strong>Name:</strong> "
    ++ name ++ "</p>\n          <p><strong>Email (Reply-To):</strong> "
    ++ replyToEmail ++ "</p>\n          <p><strong>Subject:</strong> "
    ++ subject ++ "</p>\n          <p><strong>Message:</strong></p>\n          <p>"
    ++ message ++ "</p> \n          <hr>\n          <p><em>This email was sent from the contact form on the Crystron Technologies website.</em></p>\n        "

/-- Evaluation of the argument object of `resend.emails.send`, property by
property in source order; any of the conversions may throw. -/
def buildEmail (fromEmail toEmail : Option String) (name replyToEmail subject message : JsVal) :
    Except JsError OutboundEmail :=
  match toStr subject with
  | .error e => .error e
  | .ok subjectLine =>
    match toStr name with
    | .error e => .error e
    | .ok nameStr =>
      match toStr replyToEmail with
      | .error e => .error e
      | .ok replyStr =>
        match toStr subject with
        | .error e => .error e
        | .ok subjectStr =>
          match callReplace message with
          | .error e => .error e
          | .ok messageStr =>
            .ok { from_ := fromEmail
                  to_ := [toEmail]
                  subject := "New Contact Form Submission: " ++ subjectLine
                  reply_to := replyToEmail
                  html := htmlBody nameStr replyStr subjectStr messageStr }

/-- The `catch (error)` block. -/
def catchBlock (error : JsError) (sent : List OutboundEmail) : Outcome :=
  { responses := [⟨500, [], "Something went wrong on our end. Failed to send your message."⟩]
    sent := sent
    logs := [.catchBlock error] }

/-- The exported handler `module.exports = async (req, res) => ...`. -/
def handle (resend : Resend) (env : Env) (req : Request) : Outcome :=
  let resendApiKey := env.RESEND_API_KEY
  let toEmail := env.CONTACT_FORM_TO_EMAIL
  let fromEmail := env.CONTACT_FORM_FROM_EMAIL
  if req.method = "POST" then
    match destructure req.body with
    | .error e => { escaped := some e }
    | .ok (name, replyToEmail, subject, message) =>
      if !truthy name || !truthy replyToEmail || !truthy subject || !truthy message then
        { responses := [⟨400, [], "Oops! All fields are required."⟩] }
      else if !envTruthy resendApiKey || !envTruthy toEmail || !envTruthy fromEmail then
        let missingVars :=
          (if !envTruthy resendApiKey then ["RESEND_API_KEY"] else [])
            ++ (if !envTruthy toEmail then ["CONTACT_FORM_TO_EMAIL"] else [])
            ++ (if !envTruthy fromEmail then ["CONTACT_FORM_FROM_EMAIL"] else [])
        { responses :=
            [⟨500, [], "Server configuration error. Please contact support if this issue persists."⟩]
          logs :=
            [.configError ("Server Configuration Error: Missing environment variables: "
              ++ String.intercalate ", " missingVars)] }
      else
        let client := resend resendApiKey
        match buildEmail fromEmail toEmail name replyToEmail subject message with
        | .error e => catchBlock e []
        | .ok mail =>
          match client mail with
          | .rejected reason => catchBlock (.rejected reason) [mail]
          | .resolved emailSentData emailSendError =>
            match emailSendError with
            | some err =>
              { responses :=
                  [⟨500, [], "Failed to send message. Service error: " ++ err.message⟩]
                sent := [mail]
                logs := [.resendApiError err] }
            | none =>
              match emailSentData with
              | none => catchBlock .typeError [mail]
              | some id =>
                { responses :=
                    [⟨200, [], "Thank you! Your message has been sent successfully."⟩]
                  sent := [mail]
                  logs := [.sentId id] }
  else
    { responses :=
        [⟨405, [("Allow", ["POST"])], "Method " ++ req.method ++ " Not Allowed. Please use POST."⟩] }

/-- All three environment values are set and non-empty. -/
def configured (env : Env) : Bool :=
  envTruthy env.RESEND_API_KEY && envTruthy env.CONTACT_FORM_TO_EMAIL
    && envTruthy env.CONTACT_FORM_FROM_EMAIL

/-- All four fields of a body are truthy. -/
def fieldsPresent (body : JsVal) : Bool :=
  truthy (property body "name") && truthy (property body "email")
    && truthy (property body "subject") && truthy (property body "message")

/-! ## Auxiliary facts -/

theorem destructure_of_body (body : JsVal) (h : isNullish body = false) :
    destructure body
      = .ok (property body "name", property body "email", property body "subject",
             property body "message") := by
  simp [destructure, h]

theorem isNullish_of_property_str (body : JsVal) (k s : String)
    (h : property body k = .str s) : isNullish body = false := by
  cases body <;> simp_all [property, isNullish]

theorem isNullish_of_fieldsPresent (body : JsVal) (h : fieldsPresent body = true) :
    isNullish body = false := by
  cases body <;> simp_all [fieldsPresent, property, truthy, isNullish]

theorem configured_iff (env : Env) :
    configured env = true ↔
      envTruthy env.RESEND_API_KEY = true ∧ envTruthy env.CONTACT_FORM_TO_EMAIL = true
        ∧ envTruthy env.CONTACT_FORM_FROM_EMAIL = true := by
  simp [configured, and_assoc]

theorem fieldsPresent_iff (body : JsVal) :
    fieldsPresent body = true ↔
      truthy (property body "name") = true ∧ truthy (property body "email") = true
        ∧ truthy (property body "subject") = true ∧ truthy (property body "message") = true := by
  simp [fieldsPresent, and_assoc]

/-- Once the guards have passed, the handler's outcome is decided by the
evaluation of the email and by the provider's answer. -/
theorem handle_past_guards (resend : Resend) (env : Env) (req : Request)
    (hpost : req.method = "POST") (hbody : isNullish req.body = false)
    (hfields : fieldsPresent req.body = true) (hcfg : configured env = true) :
    handle resend env req =
      match buildEmail env.CONTACT_FORM_FROM_EMAIL env.CONTACT_FORM_TO_EMAIL
          (property req.body "name") (property req.body "email")
          (property req.body "subject") (property req.body "message") with
      | .error e => catchBlock e []
      | .ok mail =>
        match resend env.RESEND_API_KEY mail with
        | .rejected reason => catchBlock (.rejected reason) [mail]
        | .resolved emailSentData emailSendError =>
          match emailSendError with
          | some err =>
            { responses :=
                [⟨500, [], "Failed to send message. Service error: " ++ err.message⟩]
              sent := [mail]
              logs := [.resendApiError err] }
          | none =>
            match emailSentData with
            | none => catchBlock .typeError [mail]
            | some id =>
              { responses :=
                  [⟨200, [], "Thank you! Your message has been sent successfully."⟩]
                sent := [mail]
                logs := [.sentId id] } := by
  obtain ⟨hk, ht, hf⟩ := (configured_iff env).1 hcfg
  obtain ⟨h1, h2, h3, h4⟩ := (fieldsPresent_iff req.body).1 hfields
  simp [handle, hpost, destructure_of_body _ hbody, h1, h2, h3, h4, hk, ht, hf]

theorem buildEmail_str (fromEmail toEmail : Option String) (name email subject message : String) :
    buildEmail fromEmail toEmail (.str name) (.str email) (.str subject) (.str message)
      = .ok { from_ := fromEmail
              to_ := [toEmail]
              subject := "New Contact Form Submission: " ++ subject
              reply_to := .str email
              html := htmlBody name email subject (replaceNewlines message) } := by
  simp [buildEmail, toStr, callReplace]

theorem handle_other_method (resend : Resend) (env : Env) (req : Request)
    (hmethod : req.method ≠ "POST") :
    handle resend env req =
      { responses :=
          [⟨405, [("Allow", ["POST"])],
            "Method " ++ req.method ++ " Not Allowed. Please use POST."⟩] } := by
  simp [handle, hmethod]

theorem handle_nullish_body (resend : Resend) (env : Env) (req : Request)
    (hpost : req.method = "POST") (hbody : isNullish req.body = true) :
    handle resend env req = { escaped := some .typeError } := by
  simp [handle, hpost, destructure, hbody]

theorem handle_missing_field (resend : Resend) (env : Env) (req : Request)
    (hpost : req.method = "POST") (hbody : isNullish req.body = false)
    (hfields : fieldsPresent req.body = false) :
    handle resend env req = { responses := [⟨400, [], "Oops! All fields are required."⟩] } := by
  have h : (!truthy (property req.body "name") || !truthy (property req.body "email")
      || !truthy (property req.body "subject") || !truthy (property req.body "message")) = true := by
    simp only [fieldsPresent] at hfields
    revert hfields
    cases truthy (property req.body "name") <;> cases truthy (property req.body "email")
      <;> cases truthy (property req.body "subject")
      <;> cases truthy (property req.body "message") <;> simp
  simp only [handle, hpost, destructure_of_body _ hbody, h, if_true]

theorem handle_missing_config (resend : Resend) (env : Env) (req : Request)
    (hpost : req.method = "POST") (hbody : isNullish req.body = false)
    (hfields : fieldsPresent req.body = true) (hcfg : configured env = false) :
    handle resend env req =
      { responses :=
          [⟨500, [], "Server configuration error. Please contact support if this issue persists."⟩]
        logs :=
          [.configError ("Server Configuration Error: Missing environment variables: "
            ++ String.intercalate ", "
              ((if !envTruthy env.RESEND_API_KEY then ["RESEND_API_KEY"] else [])
                ++ (if !envTruthy env.CONTACT_FORM_TO_EMAIL then ["CONTACT_FORM_TO_EMAIL"] else [])
                ++ (if !envTruthy env.CONTACT_FORM_FROM_EMAIL then ["CONTACT_FORM_FROM_EMAIL"]
                    else [])))] } := by
  obtain ⟨h1, h2, h3, h4⟩ := (fieldsPresent_iff req.body).1 hfields
  have h : (!envTruthy env.RESEND_API_KEY || !envTruthy env.CONTACT_FORM_TO_EMAIL
      || !envTruthy env.CONTACT_FORM_FROM_EMAIL) = true := by
    simp only [configured] at hcfg
    revert hcfg
    cases envTruthy env.RESEND_API_KEY <;> cases envTruthy env.CONTACT_FORM_TO_EMAIL
      <;> cases envTruthy env.CONTACT_FORM_FROM_EMAIL <;> simp
  simp only [handle, hpost, destructure_of_body _ hbody, h1, h2, h3, h4, h, if_true]
  rfl

/-- Past the guards there is one response, its status is 200 or 500, nothing
escapes, and the provider has been called at most once. -/
theorem handle_past_guards_shape (resend : Resend) (env : Env) (req : Request)
    (hpost : req.method = "POST") (hbody : isNullish req.body = false)
    (hfields : fieldsPresent req.body = true) (hcfg : configured env = true) :
    (∃ r, (handle resend env req).responses = [r] ∧ (r.status = 200 ∨ r.status = 500))
      ∧ (handle resend env req).sent.length ≤ 1
      ∧ (handle resend env req).escaped = none := by
  rw [handle_past_guards resend env req hpost hbody hfields hcfg]
  cases buildEmail env.CONTACT_FORM_FROM_EMAIL env.CONTACT_FORM_TO_EMAIL
      (property req.body "name") (property req.body "email")
      (property req.body "subject") (property req.body "message") with
  | error e => simp [catchBlock]
  | ok mail =>
    simp only []
    cases resend env.RESEND_API_KEY mail with
    | rejected reason => simp [catchBlock]
    | resolved data error =>
      cases error with
      | some err => simp
      | none =>
        cases data with
        | none => simp [catchBlock]
        | some id => simp

/-- Past the guards, an email that could be built is sent exactly once,
whatever the provider answers. -/
theorem handle_sent_of_mail (resend : Resend) (env : Env) (req : Request) (mail : OutboundEmail)
    (hpost : req.method = "POST") (hbody : isNullish req.body = false)
    (hfields : fieldsPresent req.body = true) (hcfg : configured env = true)
    (hmail : buildEmail env.CONTACT_FORM_FROM_EMAIL env.CONTACT_FORM_TO_EMAIL
      (property req.body "name") (property req.body "email")
      (property req.body "subject") (property req.body "message") = .ok mail) :
    (handle resend env req).sent = [mail] := by
  rw [handle_past_guards resend env req hpost hbody hfields hcfg, hmail]
  simp only []
  cases resend env.RESEND_API_KEY mail with
  | rejected reason => rfl
  | resolved data error =>
    cases error with
    | some err => rfl
    | none =>
      cases data with
      | none => rfl
      | some id => rfl

/-! ### The newline replacement -/

theorem replaceLoop_eq (acc seg input : List Char) :
    replaceLoop acc seg input = acc ++ seg.reverse ++ input.flatMap brOf := by
  induction input generalizing acc seg with
  | nil => simp [replaceLoop]
  | cons c rest ih =>
    by_cases hc : c = '\n'
    · simp [replaceLoop, hc, ih, brOf]
    · simp [replaceLoop, hc, ih, brOf]

theorem replaceNewlines_data (s : String) :
    (replaceNewlines s).data = s.data.flatMap brOf := by
  simp [replaceNewlines, replaceLoop_eq]

theorem newline_not_mem_flatMap (cs : List Char) : '\n' ∉ cs.flatMap brOf := by
  induction cs with
  | nil => simp
  | cons c rest ih =>
    by_cases hc : c = '\n'
    · simp [List.flatMap_cons, brOf, hc, ih]
    · simp [List.flatMap_cons, brOf, hc, ih, Ne.symm hc]

theorem length_flatMap_brOf (cs : List Char) :
    (cs.flatMap brOf).length = cs.length + 3 * cs.count '\n' := by
  induction cs with
  | nil => simp
  | cons c rest ih =>
    by_cases hc : c = '\n'
    · simp [List.flatMap_cons, brOf, hc, ih]; omega
    · simp [List.flatMap_cons, brOf, hc, ih, List.count_cons]; omega

theorem filter_sublist_flatMap_brOf (cs : List Char) :
    (cs.filter (fun c => c ≠ '\n')).Sublist (cs.flatMap brOf) := by
  induction cs with
  | nil => simp
  | cons c rest ih =>
    by_cases hc : c = '\n'
    · simp only [List.flatMap_cons, brOf, hc, if_true]
      simpa using ih.trans (List.sublist_append_right ['<', 'b', 'r', '>'] _)
    · simp only [List.flatMap_cons, brOf, hc, if_false]
      simpa [List.filter_cons, hc] using ih

/-! ## Guards -/

/-- C1: a POST request that has a body in which at least one of `name`,
`email`, `subject`, `message` is absent or falsy is answered, whatever the
configuration, with status 400 and the message "Oops! All fields are
required.", and the provider's send is not invoked. -/
theorem missing_field_is_400 (resend : Resend) (env : Env) (req : Request)
    (hpost : req.method = "POST") (hbody : isNullish req.body = false)
    (hmiss : truthy (property req.body "name") = false
      ∨ truthy (property req.body "email") = false
      ∨ truthy (property req.body "subject") = false
      ∨ truthy (property req.body "message") = false) :
    (handle resend env req).responses = [⟨400, [], "Oops! All fields are required."⟩]
      ∧ (handle resend env req).sent = []
      ∧ (handle resend env req).escaped = none := by
  have hfields : fieldsPresent req.body = false := by
    rcases hmiss with h | h | h | h <;> simp [fieldsPresent, h]
  rw [handle_missing_field resend env req hpost hbody hfields]
  exact ⟨rfl, rfl, rfl⟩

/-- C1 at a body that carries a name and an empty email only, with nothing
configured. -/
theorem missing_field_is_400_witness :
    (handle (fun _ _ => .rejected "offline") ⟨none, none, none⟩
        ⟨"POST", .obj [("name", .str "Ada"), ("email", .str "")]⟩).responses
        = [⟨400, [], "Oops! All fields are required."⟩]
      ∧ (handle (fun _ _ => .rejected "offline") ⟨none, none, none⟩
        ⟨"POST", .obj [("name", .str "Ada"), ("email", .str "")]⟩).sent = []
      ∧ (handle (fun _ _ => .rejected "offline") ⟨none, none, none⟩
        ⟨"POST", .obj [("name", .str "Ada"), ("email", .str "")]⟩).escaped = none :=
  missing_field_is_400 _ _ _ rfl rfl (Or.inr (Or.inl rfl))

/-- C2: a POST request whose four fields are all non-empty, under a
configuration in which at least one of the API key, the destination address and
the source address is absent or empty, is answered with status 500 and the
message "Server configuration error. Please contact support if this issue
persists." (the same whichever values are missing), and the provider's send is
not invoked. -/
theorem missing_config_is_500 (resend : Resend) (env : Env) (req : Request)
    (hpost : req.method = "POST")
    (hfields : fieldsPresent req.body = true) (hcfg : configured env = false) :
    (handle resend env req).responses
        = [⟨500, [], "Server configuration error. Please contact support if this issue persists."⟩]
      ∧ (handle resend env req).sent = []
      ∧ (handle resend env req).escaped = none := by
  have hbody := isNullish_of_fieldsPresent _ hfields
  rw [handle_missing_config resend env req hpost hbody hfields hcfg]
  exact ⟨rfl, rfl, rfl⟩

/-- C2 at a complete submission when the destination address is set to the
empty string. -/
theorem missing_config_is_500_witness :
    (handle (fun _ _ => .resolved (some "id-1") none)
        ⟨some "re_key", some "", some "web@crystron.example"⟩
        ⟨"POST", .obj [("name", .str "Ada"), ("email", .str "ada@example.org"),
          ("subject", .str "Quote"), ("message", .str "Hello")]⟩).responses
        = [⟨500, [], "Server configuration error. Please contact support if this issue persists."⟩]
      ∧ (handle (fun _ _ => .resolved (some "id-1") none)
        ⟨some "re_key", some "", some "web@crystron.example"⟩
        ⟨"POST", .obj [("name", .str "Ada"), ("email", .str "ada@example.org"),
          ("subject", .str "Quote"), ("message", .str "Hello")]⟩).sent = []
      ∧ (handle (fun _ _ => .resolved (some "id-1") none)
        ⟨some "re_key", some "", some "web@crystron.example"⟩
        ⟨"POST", .obj [("name", .str "Ada"), ("email", .str "ada@example.org"),
          ("subject", .str "Quote"), ("message", .str "Hello")]⟩).escaped = none :=
  missing_config_is_500 _ _ _ rfl rfl rfl

/-- C4: a request whose method is not "POST" is answered, whatever its body and
the configuration, with status 405, the header `Allow` set to `POST`, and the
message "Method M Not Allowed. Please use POST." built from its method M. -/
theorem other_method_is_405 (resend : Resend) (env : Env) (req : Request)
    (hmethod : req.method ≠ "POST") :
    (handle resend env req).responses
        = [⟨405, [("Allow", ["POST"])],
            "Method " ++ req.method ++ " Not Allowed. Please use POST."⟩]
      ∧ (handle resend env req).sent = []
      ∧ (handle resend env req).escaped = none := by
  rw [handle_other_method resend env req hmethod]
  exact ⟨rfl, rfl, rfl⟩

/-- C4 at a GET request without a body. -/
theorem other_method_is_405_witness :
    (handle (fun _ _ => .resolved (some "id-1") none) ⟨none, none, none⟩
        ⟨"GET", .undefined⟩).responses
      = [⟨405, [("Allow", ["POST"])], "Method GET Not Allowed. Please use POST."⟩] :=
  (other_method_is_405 _ _ ⟨"GET", .undefined⟩ (by decide)).1

/-! ## Provider outcomes -/

/-- C3: for a POST request whose four fields are non-empty strings, under a
complete configuration, when the provider's send answers the handler's email
with an id and no error, the response is 200 with the message "Thank you! Your
message has been sent successfully.", and the email passed to the provider has
`from` the configured source address, `to` the one-element list of the
configured destination address, `reply_to` the submitted email and subject
"New Contact Form Submission: " followed by the submitted subject. -/
theorem success_is_200 (resend : Resend) (env : Env) (req : Request)
    (name email subject message id : String)
    (hpost : req.method = "POST")
    (hname : property req.body "name" = .str name) (hn : name ≠ "")
    (hemail : property req.body "email" = .str email) (he : email ≠ "")
    (hsubject : property req.body "subject" = .str subject) (hs : subject ≠ "")
    (hmessage : property req.body "message" = .str message) (hm : message ≠ "")
    (hcfg : configured env = true)
    (hsend : ∀ mail,
      buildEmail env.CONTACT_FORM_FROM_EMAIL env.CONTACT_FORM_TO_EMAIL
        (.str name) (.str email) (.str subject) (.str message) = .ok mail →
      resend env.RESEND_API_KEY mail = .resolved (some id) none) :
    (handle resend env req).responses
        = [⟨200, [], "Thank you! Your message has been sent successfully."⟩]
      ∧ ∃ mail, (handle resend env req).sent = [mail]
          ∧ mail.from_ = env.CONTACT_FORM_FROM_EMAIL
          ∧ mail.to_ = [env.CONTACT_FORM_TO_EMAIL]
          ∧ mail.reply_to = .str email
          ∧ mail.subject = "New Contact Form Submission: " ++ subject := by
  have hbody := isNullish_of_property_str _ _ _ hname
  have hfields : fieldsPresent req.body = true := by
    simp [fieldsPresent, hname, hemail, hsubject, hmessage, truthy, hn, he, hs, hm]
  have hmail := buildEmail_str env.CONTACT_FORM_FROM_EMAIL env.CONTACT_FORM_TO_EMAIL
    name email subject message
  rw [handle_past_guards resend env req hpost hbody hfields hcfg, hname, hemail, hsubject,
    hmessage, hmail]
  simp only [hsend _ hmail]
  exact ⟨trivial, _, rfl, rfl, rfl, rfl, rfl⟩

/-- C3 at a complete submission with a provider that accepts every email. -/
theorem success_is_200_witness :
    (handle (fun _ _ => .resolved (some "id-1") none)
        ⟨some "re_key", some "sales@crystron.example", some "web@crystron.example"⟩
        ⟨"POST", .obj [("name", .str "Ada"), ("email", .str "ada@example.org"),
          ("subject", .str "Quote"), ("message", .str "Hello")]⟩).responses
      = [⟨200, [], "Thank you! Your message has been sent successfully."⟩] :=
  (success_is_200 (fun _ _ => .resolved (some "id-1") none)
    ⟨some "re_key", some "sales@crystron.example", some "web@crystron.example"⟩
    ⟨"POST", .obj [("name", .str "Ada"), ("email", .str "ada@example.org"),
      ("subject", .str "Quote"), ("message", .str "Hello")]⟩
    "Ada" "ada@example.org" "Quote" "Hello" "id-1"
    rfl rfl (by decide) rfl (by decide) rfl (by decide) rfl (by decide) rfl
    (fun _ _ => rfl)).1

/-- C5, as the code has it: for a POST request with complete fields and
complete configuration, when the provider's send answers the handler's email
with an error carrying message `m`, the response is 500 and its message is
exactly "Failed to send message. Service error: " followed by `m`, with nothing
after `m`. -/
theorem provider_error_is_500 (resend : Resend) (env : Env) (req : Request)
    (mail : OutboundEmail) (data : Option String) (m : String)
    (hpost : req.method = "POST")
    (hfields : fieldsPresent req.body = true) (hcfg : configured env = true)
    (hmail : buildEmail env.CONTACT_FORM_FROM_EMAIL env.CONTACT_FORM_TO_EMAIL
      (property req.body "name") (property req.body "email")
      (property req.body "subject") (property req.body "message") = .ok mail)
    (hsend : resend env.RESEND_API_KEY mail = .resolved data (some ⟨m⟩)) :
    (handle resend env req).responses
      = [⟨500, [], "Failed to send message. Service error: " ++ m⟩] := by
  have hbody := isNullish_of_fieldsPresent _ hfields
  rw [handle_past_guards resend env req hpost hbody hfields hcfg, hmail]
  simp only [hsend]

/-- C5 as amended, at a complete submission refused with "invalid_from". -/
theorem provider_error_is_500_witness :
    (handle (fun _ _ => .resolved none (some ⟨"invalid_from"⟩))
        ⟨some "re_key", some "sales@crystron.example", some "web@crystron.example"⟩
        ⟨"POST", .obj [("name", .str "Ada"), ("email", .str "ada@example.org"),
          ("subject", .str "Quote"), ("message", .str "Hello")]⟩).responses
      = [⟨500, [], "Failed to send message. Service error: " ++ "invalid_from"⟩] :=
  provider_error_is_500 (fun _ _ => .resolved none (some ⟨"invalid_from"⟩))
    ⟨some "re_key", some "sales@crystron.example", some "web@crystron.example"⟩
    ⟨"POST", .obj [("name", .str "Ada"), ("email", .str "ada@example.org"),
      ("subject", .str "Quote"), ("message", .str "Hello")]⟩
    _ none "invalid_from" rfl rfl rfl (buildEmail_str _ _ "Ada" "ada@example.org" "Quote" "Hello")
    rfl

/-- C5 as stated fails: when the provider refuses a complete submission with
the message "invalid_from", the response message ends with "invalid_from" and
is not "Failed to send message. Service error: invalid_from." with a closing
full stop. -/
theorem provider_error_message_lacks_full_stop :
    (handle (fun _ _ => .resolved none (some ⟨"invalid_from"⟩))
        ⟨some "re_key", some "sales@crystron.example", some "web@crystron.example"⟩
        ⟨"POST", .obj [("name", .str "Ada"), ("email", .str "ada@example.org"),
          ("subject", .str "Quote"), ("message", .str "Hello")]⟩).responses
      = [⟨500, [], "Failed to send message. Service error: invalid_from"⟩]
    ∧ (handle (fun _ _ => .resolved none (some ⟨"invalid_from"⟩))
        ⟨some "re_key", some "sales@crystron.example", some "web@crystron.example"⟩
        ⟨"POST", .obj [("name", .str "Ada"), ("email", .str "ada@example.org"),
          ("subject", .str "Quote"), ("message", .str "Hello")]⟩).responses
      ≠ [⟨500, [], "Failed to send message. Service error: " ++ "invalid_from" ++ "."⟩] := by
  decide

/-- C6: for a POST request with complete fields and complete configuration,
when the provider's send answers the handler's email with an error carrying
message `m`, there is exactly one response, its status is 500 and not 200, and
its message contains `m` as a substring. -/
theorem provider_error_surfaces_message (resend : Resend) (env : Env) (req : Request)
    (mail : OutboundEmail) (data : Option String) (m : String)
    (hpost : req.method = "POST")
    (hfields : fieldsPresent req.body = true) (hcfg : configured env = true)
    (hmail : buildEmail env.CONTACT_FORM_FROM_EMAIL env.CONTACT_FORM_TO_EMAIL
      (property req.body "name") (property req.body "email")
      (property req.body "subject") (property req.body "message") = .ok mail)
    (hsend : resend env.RESEND_API_KEY mail = .resolved data (some ⟨m⟩)) :
    ∃ r, (handle resend env req).responses = [r]
      ∧ r.status = 500 ∧ r.status ≠ 200
      ∧ ∃ before after, r.message = before ++ m ++ after := by
  have hbody := isNullish_of_fieldsPresent _ hfields
  rw [handle_past_guards resend env req hpost hbody hfields hcfg, hmail]
  simp only [hsend]
  exact ⟨_, rfl, rfl, by simp, "Failed to send message. Service error: ", "", by simp⟩

/-- C6 at a complete submission refused with "invalid_from". -/
theorem provider_error_surfaces_message_witness :
    ∃ r, (handle (fun _ _ => .resolved none (some ⟨"invalid_from"⟩))
        ⟨some "re_key", some "sales@crystron.example", some "web@crystron.example"⟩
        ⟨"POST", .obj [("name", .str "Ada"), ("email", .str "ada@example.org"),
          ("subject", .str "Quote"), ("message", .str "Hello")]⟩).responses = [r]
      ∧ r.status = 500 ∧ r.status ≠ 200
      ∧ ∃ before after, r.message = before ++ "invalid_from" ++ after :=
  provider_error_surfaces_message (fun _ _ => .resolved none (some ⟨"invalid_from"⟩))
    ⟨some "re_key", some "sales@crystron.example", some "web@crystron.example"⟩
    ⟨"POST", .obj [("name", .str "Ada"), ("email", .str "ada@example.org"),
      ("subject", .str "Quote"), ("message", .str "Hello")]⟩
    _ none "invalid_from" rfl rfl rfl (buildEmail_str _ _ "Ada" "ada@example.org" "Quote" "Hello")
    rfl

/-- C7: for a POST request with complete fields and complete configuration,
when the provider's send throws on the handler's email, the response is 500
with the message "Something went wrong on our end. Failed to send your
message."; two runs that differ only in the thrown error give equal responses. -/
theorem provider_throw_is_generic_500 (resend₁ resend₂ : Resend) (env : Env) (req : Request)
    (mail : OutboundEmail) (reason₁ reason₂ : String)
    (hpost : req.method = "POST")
    (hfields : fieldsPresent req.body = true) (hcfg : configured env = true)
    (hmail : buildEmail env.CONTACT_FORM_FROM_EMAIL env.CONTACT_FORM_TO_EMAIL
      (property req.body "name") (property req.body "email")
      (property req.body "subject") (property req.body "message") = .ok mail)
    (hthrow₁ : resend₁ env.RESEND_API_KEY mail = .rejected reason₁)
    (hthrow₂ : resend₂ env.RESEND_API_KEY mail = .rejected reason₂) :
    (handle resend₁ env req).responses
        = [⟨500, [], "Something went wrong on our end. Failed to send your message."⟩]
      ∧ (handle resend₂ env req).responses = (handle resend₁ env req).responses := by
  have hbody := isNullish_of_fieldsPresent _ hfields
  rw [handle_past_guards resend₁ env req hpost hbody hfields hcfg,
    handle_past_guards resend₂ env req hpost hbody hfields hcfg, hmail]
  simp only [hthrow₁, hthrow₂]
  exact ⟨rfl, rfl⟩

/-- C7 at a complete submission, once with a timeout and once with a refused
connection. -/
theorem provider_throw_is_generic_500_witness :
    (handle (fun _ _ => .rejected "ETIMEDOUT")
        ⟨some "re_key", some "sales@crystron.example", some "web@crystron.example"⟩
        ⟨"POST", .obj [("name", .str "Ada"), ("email", .str "ada@example.org"),
          ("subject", .str "Quote"), ("message", .str "Hello")]⟩).responses
        = [⟨500, [], "Something went wrong on our end. Failed to send your message."⟩]
      ∧ (handle (fun _ _ => .rejected "ECONNREFUSED")
        ⟨some "re_key", some "sales@crystron.example", some "web@crystron.example"⟩
        ⟨"POST", .obj [("name", .str "Ada"), ("email", .str "ada@example.org"),
          ("subject", .str "Quote"), ("message", .str "Hello")]⟩).responses
        = (handle (fun _ _ => .rejected "ETIMEDOUT")
        ⟨some "re_key", some "sales@crystron.example", some "web@crystron.example"⟩
        ⟨"POST", .obj [("name", .str "Ada"), ("email", .str "ada@example.org"),
          ("subject", .str "Quote"), ("message", .str "Hello")]⟩).responses :=
  provider_throw_is_generic_500 (fun _ _ => .rejected "ETIMEDOUT")
    (fun _ _ => .rejected "ECONNREFUSED")
    ⟨some "re_key", some "sales@crystron.example", some "web@crystron.example"⟩
    ⟨"POST", .obj [("name", .str "Ada"), ("email", .str "ada@example.org"),
      ("subject", .str "Quote"), ("message", .str "Hello")]⟩
    _ "ETIMEDOUT" "ECONNREFUSED" rfl rfl rfl
    (buildEmail_str _ _ "Ada" "ada@example.org" "Quote" "Hello") rfl rfl

/-! ## Provider calls and totality -/

/-- C8: the handler invokes the provider's send at most once; it invokes it
only if the method is POST, all four fields are non-empty and all three
configuration values are present; and when these hold and the four fields are
strings it invokes it exactly once. -/
theorem send_at_most_once (resend : Resend) (env : Env) (req : Request) :
    (handle resend env req).sent.length ≤ 1
      ∧ ((handle resend env req).sent ≠ [] →
          req.method = "POST" ∧ fieldsPresent req.body = true ∧ configured env = true)
      ∧ (∀ name email subject message : String,
          req.method = "POST" → fieldsPresent req.body = true → configured env = true →
          property req.body "name" = .str name → property req.body "email" = .str email →
          property req.body "subject" = .str subject →
          property req.body "message" = .str message →
          (handle resend env req).sent.length = 1) := by
  refine ⟨?_, ?_, ?_⟩
  · by_cases hpost : req.method = "POST"
    · cases hbody : isNullish req.body with
      | true => simp [handle_nullish_body resend env req hpost hbody]
      | false =>
        cases hfields : fieldsPresent req.body with
        | false => simp [handle_missing_field resend env req hpost hbody hfields]
        | true =>
          cases hcfg : configured env with
          | false => simp [handle_missing_config resend env req hpost hbody hfields hcfg]
          | true => exact (handle_past_guards_shape resend env req hpost hbody hfields hcfg).2.1
    · simp [handle_other_method resend env req hpost]
  · intro hsent
    by_cases hpost : req.method = "POST"
    · cases hbody : isNullish req.body with
      | true => simp [handle_nullish_body resend env req hpost hbody] at hsent
      | false =>
        cases hfields : fieldsPresent req.body with
        | false => simp [handle_missing_field resend env req hpost hbody hfields] at hsent
        | true =>
          cases hcfg : configured env with
          | false =>
            simp [handle_missing_config resend env req hpost hbody hfields hcfg] at hsent
          | true => exact ⟨hpost, rfl, rfl⟩
    · simp [handle_other_method resend env req hpost] at hsent
  · intro name email subject message hpost hfields hcfg hname hemail hsubject hmessage
    have hbody := isNullish_of_property_str _ _ _ hname
    have hmail := buildEmail_str env.CONTACT_FORM_FROM_EMAIL env.CONTACT_FORM_TO_EMAIL
      name email subject message
    rw [← hname, ← hemail, ← hsubject, ← hmessage] at hmail
    rw [handle_sent_of_mail resend env req _ hpost hbody hfields hcfg hmail]
    rfl

/-- C8 at a complete submission whose delivery the provider refuses: the send
is invoked once and not repeated. -/
theorem send_at_most_once_witness :
    (handle (fun _ _ => .resolved none (some ⟨"rate_limit_exceeded"⟩))
        ⟨some "re_key", some "sales@crystron.example", some "web@crystron.example"⟩
        ⟨"POST", .obj [("name", .str "Ada"), ("email", .str "ada@example.org"),
          ("subject", .str "Quote"), ("message", .str "Hello")]⟩).sent.length = 1 :=
  (send_at_most_once (fun _ _ => .resolved none (some ⟨"rate_limit_exceeded"⟩))
    ⟨some "re_key", some "sales@crystron.example", some "web@crystron.example"⟩
    ⟨"POST", .obj [("name", .str "Ada"), ("email", .str "ada@example.org"),
      ("subject", .str "Quote"), ("message", .str "Hello")]⟩).2.2
    "Ada" "ada@example.org" "Quote" "Hello" rfl rfl rfl rfl rfl rfl rfl

/-- C9: for a POST request with non-empty string fields and complete
configuration, the HTML body passed to the provider contains, in this order,
the submitted name, email and subject verbatim and the message with every
newline replaced by `<br>`: that fragment is the message with each newline
character turned into `<br>` and every other character kept in place, it
contains no newline, it is longer than the message by three times the number
of newlines, and the message without its newlines is a subsequence of it. -/
theorem html_embeds_submission (resend : Resend) (env : Env) (req : Request)
    (name email subject message : String)
    (hpost : req.method = "POST")
    (hname : property req.body "name" = .str name) (hn : name ≠ "")
    (hemail : property req.body "email" = .str email) (he : email ≠ "")
    (hsubject : property req.body "subject" = .str subject) (hs : subject ≠ "")
    (hmessage : property req.body "message" = .str message) (hm : message ≠ "")
    (hcfg : configured env = true) :
    ∃ mail, (handle resend env req).sent = [mail]
      ∧ (∃ p₀ p₁ p₂ p₃ p₄, mail.html
          = p₀ ++ name ++ p₁ ++ email ++ p₂ ++ subject ++ p₃ ++ replaceNewlines message ++ p₄)
      ∧ replaceNewlines message = newlinesToBr message
      ∧ '\n' ∉ (replaceNewlines message).data
      ∧ (replaceNewlines message).length = message.length + 3 * message.data.count '\n'
      ∧ (message.data.filter (fun c => c ≠ '\n')).Sublist (replaceNewlines message).data := by
  have hbody := isNullish_of_property_str _ _ _ hname
  have hfields : fieldsPresent req.body = true := by
    simp [fieldsPresent, hname, hemail, hsubject, hmessage, truthy, hn, he, hs, hm]
  have hmail := buildEmail_str env.CONTACT_FORM_FROM_EMAIL env.CONTACT_FORM_TO_EMAIL
    name email subject message
  rw [← hname, ← hemail, ← hsubject, ← hmessage] at hmail
  refine ⟨_, handle_sent_of_mail resend env req _ hpost hbody hfields hcfg hmail,
    ⟨_, _, _, _, _, rfl⟩, ?_, ?_, ?_, ?_⟩
  · exact congrArg String.mk (replaceLoop_eq [] [] message.data)
  · rw [replaceNewlines_data]
    exact newline_not_mem_flatMap _
  · rw [String.length, replaceNewlines_data, length_flatMap_brOf]
    rfl
  · rw [replaceNewlines_data]
    exact filter_sublist_flatMap_brOf _

/-- C9 at a two-line message. -/
theorem html_embeds_submission_witness :
    ∃ mail, (handle (fun _ _ => .resolved (some "id-1") none)
        ⟨some "re_key", some "sales@crystron.example", some "web@crystron.example"⟩
        ⟨"POST", .obj [("name", .str "Ada"), ("email", .str "ada@example.org"),
          ("subject", .str "Quote"), ("message", .str "one\ntwo\n")]⟩).sent = [mail]
      ∧ (∃ p₀ p₁ p₂ p₃ p₄, mail.html
          = p₀ ++ "Ada" ++ p₁ ++ "ada@example.org" ++ p₂ ++ "Quote" ++ p₃
            ++ replaceNewlines "one\ntwo\n" ++ p₄)
      ∧ replaceNewlines "one\ntwo\n" = newlinesToBr "one\ntwo\n"
      ∧ '\n' ∉ (replaceNewlines "one\ntwo\n").data
      ∧ (replaceNewlines "one\ntwo\n").length
          = "one\ntwo\n".length + 3 * "one\ntwo\n".data.count '\n'
      ∧ ("one\ntwo\n".data.filter (fun c => c ≠ '\n')).Sublist
          (replaceNewlines "one\ntwo\n").data :=
  html_embeds_submission (fun _ _ => .resolved (some "id-1") none)
    ⟨some "re_key", some "sales@crystron.example", some "web@crystron.example"⟩
    ⟨"POST", .obj [("name", .str "Ada"), ("email", .str "ada@example.org"),
      ("subject", .str "Quote"), ("message", .str "one\ntwo\n")]⟩
    "Ada" "ada@example.org" "Quote" "one\ntwo\n"
    rfl rfl (by decide) rfl (by decide) rfl (by decide) rfl (by decide) rfl

/-- The conversion on a two-line message, evaluated. -/
theorem replaceNewlines_two_lines : replaceNewlines "one\ntwo\n" = "one<br>two<br>" := by
  decide

/-- Whenever the request is not a POST, or has a body, the handler completes
with exactly one response, whose status is one of 200, 400, 405 and 500, and
nothing escapes: field values of any type, any configuration and any provider
behaviour are covered. -/
theorem handle_responds_once (resend : Resend) (env : Env) (req : Request)
    (h : req.method ≠ "POST" ∨ isNullish req.body = false) :
    ∃ r, (handle resend env req).responses = [r]
      ∧ (r.status = 200 ∨ r.status = 400 ∨ r.status = 405 ∨ r.status = 500)
      ∧ (handle resend env req).escaped = none := by
  by_cases hpost : req.method = "POST"
  · have hbody : isNullish req.body = false := h.resolve_left (fun hne => hne hpost)
    cases hfields : fieldsPresent req.body with
    | false =>
      rw [handle_missing_field resend env req hpost hbody hfields]
      exact ⟨_, rfl, Or.inr (Or.inl rfl), rfl⟩
    | true =>
      cases hcfg : configured env with
      | false =>
        rw [handle_missing_config resend env req hpost hbody hfields hcfg]
        exact ⟨_, rfl, Or.inr (Or.inr (Or.inr rfl)), rfl⟩
      | true =>
        obtain ⟨⟨r, hr, hstatus⟩, -, hesc⟩ :=
          handle_past_guards_shape resend env req hpost hbody hfields hcfg
        exact ⟨r, hr, hstatus.elim Or.inl (fun h500 => Or.inr (Or.inr (Or.inr h500))), hesc⟩
  · rw [handle_other_method resend env req hpost]
    exact ⟨_, rfl, Or.inr (Or.inr (Or.inl rfl)), rfl⟩

/-- C10 fails on a POST request without a body: for every configuration and
every provider, the destructuring of `req.body`, which stands before the `try`
block, throws; the handler writes no response and the `TypeError` leaves it.
The same holds for a body that is `null`. -/
theorem absent_body_escapes (resend : Resend) (env : Env) :
    (handle resend env ⟨"POST", .undefined⟩).responses = []
      ∧ (handle resend env ⟨"POST", .undefined⟩).sent = []
      ∧ (handle resend env ⟨"POST", .undefined⟩).escaped = some .typeError
      ∧ (handle resend env ⟨"POST", .null⟩).responses = []
      ∧ (handle resend env ⟨"POST", .null⟩).escaped = some .typeError := by
  rw [handle_nullish_body resend env ⟨"POST", .undefined⟩ rfl rfl,
    handle_nullish_body resend env ⟨"POST", .null⟩ rfl rfl]
  exact ⟨rfl, rfl, rfl, rfl, rfl⟩

end SendEmail
